import Mathlib

/-!
# Verification of the sysdig async container-metadata lookup adapters

Shallow embedding of `userspace/libsinsp/async_cgroup.cpp` and
`userspace/libsinsp/container_engine/docker_common.cpp`.

Modelling conventions:
* C++ `int64_t` values are Lean `Int`; explicit `% 2 ^ w` appears where the
  source performs a narrowing unsigned conversion.
* File-system reads are abstracted as environment functions: `fs : String → Int`
  gives the value parsed by `ifstream >> int64_t` from a path (the source
  initialises the target to `-1`, so an unreadable or unparseable file is
  modelled as the function returning `-1`); `fsStr : String → String` gives the
  full text read from a path (empty when unreadable).
* Logging calls (`g_logger.format`) are side-effect free and are dropped.
* Code of the repository that is not among the translated sources (the generic
  `async_key_value_source` engine, `cgroup_list_counter`, the HTTP transport)
  is either treated as an explicit parameter or modelled from the spec; each
  such definition carries a doc comment saying so.
-/

/-! ## Data model: `async_cgroup.h` (keys and values of the delayed cgroup lookup) -/

/-- Key of a delayed cgroup lookup: container id plus the three cgroup paths,
as used by `get_cgroup_resource_limits`. -/
structure delayed_cgroup_key where
  m_container_id : String
  m_mem_cgroup : String
  m_cpu_cgroup : String
  m_cpuset_cgroup : String
deriving DecidableEq, Repr

/-- Value of a delayed cgroup lookup: the five resource-limit fields that
`get_cgroup_resource_limits` fills in and `delayed_cgroup_lookup::update`
writes back (there is no success flag in this record). -/
structure delayed_cgroup_value where
  m_memory_limit : Int
  m_cpu_shares : Int
  m_cpu_quota : Int
  m_cpu_period : Int
  m_cpuset_cpu_count : Int
deriving DecidableEq, Repr

/-! ## String helpers mirroring the `std::string` operations used by the source -/

/-- Whether the first list is a prefix of the second (character lists). -/
def isPrefixOfChars : List Char → List Char → Bool
  | [], _ => true
  | _ :: _, [] => false
  | a :: as, b :: bs => a = b && isPrefixOfChars as bs

/-- `s.find(sub)` of `std::string`: index of the first occurrence of `sub`
in `s`, `none` for `npos`. -/
def findSubstr : List Char → List Char → Option Nat
  | s, sub =>
    if isPrefixOfChars sub s then some 0
    else
      match s with
      | [] => none
      | _ :: t => (findSubstr t sub).map (· + 1)

/-- `s.find(sub) != std::string::npos`: `sub` occurs somewhere in `s`. -/
def strContains (s sub : String) : Bool :=
  (findSubstr s.toList sub.toList).isSome

/-- `s.find(c)` of `std::string` for a single character, `none` for `npos`. -/
def findChar : List Char → Char → Option Nat
  | [], _ => none
  | a :: as, c => if a = c then some 0 else (findChar as c).map (· + 1)

/-- `s.rfind(c)`: index of the last occurrence of `c`, `none` for `npos`. -/
def rfindChar (s : List Char) (c : Char) : Option Nat :=
  (findChar s.reverse c).map (fun i => s.length - 1 - i)

/-- `s.substr(s.find(c) + 1)`. When `c` does not occur, `find` is `npos` and
`npos + 1` wraps to `0`, so the whole string is returned — as in the source. -/
def substrAfterChar (s : String) (c : Char) : String :=
  match findChar s.toList c with
  | some i => String.mk (s.toList.drop (i + 1))
  | none => s

/-- `s.substr(0, s.find(c))`. When `c` does not occur, `find` is `npos` and the
whole string is returned. -/
def substrUpToChar (s : String) (c : Char) : String :=
  match findChar s.toList c with
  | some i => String.mk (s.toList.take i)
  | none => s

/-- `s.substr(s.rfind(c) + 1)`, with the same `npos + 1 = 0` wrap as above. -/
def substrAfterLastChar (s : String) (c : Char) : String :=
  match rfindChar s.toList c with
  | some i => String.mk (s.toList.drop (i + 1))
  | none => s

/-- `s.substr(0, s.rfind(c))`. -/
def substrUpToLastChar (s : String) (c : Char) : String :=
  match rfindChar s.toList c with
  | some i => String.mk (s.toList.take i)
  | none => s

/-- `s.find(pre) == 0` / `strncmp(s.c_str(), pre, strlen(pre)) == 0`: whether
`pre` is a prefix of `s`. -/
def startsWithChars (s pre : String) : Bool :=
  isPrefixOfChars pre.toList s.toList

/-- `strncmp(a.c_str(), b.c_str(), MIN(a.length(), b.length())) == 0`:
the two strings agree on their common length. -/
def strncmpMinEq (a b : String) : Bool :=
  let n := min a.toList.length b.toList.length
  a.toList.take n = b.toList.take n

/-- `atoi`: optional sign followed by leading decimal digits; `0` when the
string does not start with a digit (after the optional sign). -/
def atoiDigits : List Char → Int
  | l =>
    let digits := l.takeWhile Char.isDigit
    digits.foldl (fun acc c => acc * 10 + (c.toNat - 48)) 0

/-- `atoi` on a string (sign handling as in C). -/
def atoi (s : String) : Int :=
  match s.toList with
  | '-' :: rest => - atoiDigits rest
  | '+' :: rest => atoiDigits rest
  | l => atoiDigits l

/-! ## `async_cgroup.cpp` -/

/-- `CGROUP_VAL_MAX = (1UL << 42u) - 1` (`async_cgroup.cpp`, line 12). -/
def CGROUP_VAL_MAX : Int := 2 ^ 42 - 1

/-- `read_cgroup_val` (`async_cgroup.cpp`, lines 23–43): read a single
`int64_t` from `subsys + "/" + cgroup + "/" + filename`; reject values with
`val <= 0 || val > CGROUP_VAL_MAX`, leaving `out` unchanged; otherwise store
the value. Returned as (success, new value of `out`). -/
def read_cgroup_val (fs : String → Int) (subsys cgroup filename : String)
    (out : Int) : Bool × Int :=
  let path := subsys ++ "/" ++ cgroup ++ "/" ++ filename
  let val := fs path
  if val ≤ 0 ∨ val > CGROUP_VAL_MAX then (false, out)
  else (true, val)

/-- Split a character list on a separator (like `String::splitOn`; a trailing
separator yields a final empty piece). -/
def splitOnChar : List Char → Char → List (List Char)
  | [], _ => [[]]
  | c :: cs, sep =>
    if c = sep then [] :: splitOnChar cs sep
    else
      match splitOnChar cs sep with
      | [] => [[c]]
      | t :: ts => (c :: t) :: ts

/-- Parse a non-empty all-digit character list as a natural number. -/
def parseNatDigits : List Char → Option Nat
  | [] => none
  | l =>
    if l.all Char.isDigit then
      some (l.foldl (fun a c => a * 10 + (c.toNat - 48)) 0)
    else none

/-- Strip leading and trailing whitespace. -/
def trimChars (l : List Char) : List Char :=
  ((l.dropWhile Char.isWhitespace).reverse.dropWhile Char.isWhitespace).reverse

/-- Modelled from the spec: one entry of a cpuset list as understood by
`libsinsp::cgroup_list_counter` (its sources, `cgroup_list_counter.h`, are not
among the translated files; the spec describes it as "counting cpuset
ranges") — either a single cpu index or an inclusive range `a-b`. -/
def countToken (t : List Char) : Option Nat :=
  match splitOnChar t '-' with
  | [a] => (parseNatDigits a).map (fun _ => 1)
  | [a, b] =>
    match parseNatDigits a, parseNatDigits b with
    | some x, some y => if x ≤ y then some (y - x + 1) else none
    | _, _ => none
  | _ => none

/-- Modelled from the spec: entry point of `libsinsp::cgroup_list_counter`
(missing source, see `countToken`): total number of cpus named by a
comma-separated list such as `"0-3,5"`, or `-1` on malformed input. -/
def cgroup_list_counter (s : String) : Int :=
  match (splitOnChar (trimChars s.toList) ',').mapM countToken with
  | some l => (l.foldl (· + ·) 0 : Nat)
  | none => -1

/-- `read_cgroup_list_count` (`async_cgroup.cpp`, lines 48–70): read the file
text, run the list counter — note `out` is assigned the counter result
unconditionally — and succeed iff the count is positive. -/
def read_cgroup_list_count (fsStr : String → String)
    (subsys cgroup filename : String) (out : Int) : Bool × Int :=
  let path := subsys ++ "/" ++ cgroup ++ "/" ++ filename
  let cpuset_cpus := fsStr path
  let o := cgroup_list_counter cpuset_cpus
  (decide (o > 0), o)

/-- Environment of `get_cgroup_resource_limits`: the three cgroup mount roots
returned by `sinsp::lookup_cgroup_dir` (whose sources are not among the
translated files) and the two file-reading abstractions. -/
structure cgroup_env where
  memcg_root : String
  cpucg_root : String
  cpuset_root : String
  fs : String → Int
  fsStr : String → String

/-- `get_cgroup_resource_limits` (`async_cgroup.cpp`, lines 76–135): for each
subsystem whose cgroup path contains the container id, read its fields,
accumulating `found_all = read && found_all`; subsystems whose path does not
contain the id are skipped (leaving `found_all` untouched). The
`report_no_cgroup` argument only selects a log level and is dropped. -/
def get_cgroup_resource_limits (env : cgroup_env) (key : delayed_cgroup_key)
    (value : delayed_cgroup_value) : Bool × delayed_cgroup_value :=
  let found_all := true
  let (found_all, value) :=
    if strContains key.m_mem_cgroup key.m_container_id then
      let (ok, v) := read_cgroup_val env.fs env.memcg_root key.m_mem_cgroup
        "memory.limit_in_bytes" value.m_memory_limit
      (ok && found_all, { value with m_memory_limit := v })
    else (found_all, value)
  let (found_all, value) :=
    if strContains key.m_cpu_cgroup key.m_container_id then
      let (ok1, v1) := read_cgroup_val env.fs env.cpucg_root key.m_cpu_cgroup
        "cpu.shares" value.m_cpu_shares
      let value := { value with m_cpu_shares := v1 }
      let found_all := ok1 && found_all
      let (ok2, v2) := read_cgroup_val env.fs env.cpucg_root key.m_cpu_cgroup
        "cpu.cfs_quota_us" value.m_cpu_quota
      let value := { value with m_cpu_quota := v2 }
      let found_all := ok2 && found_all
      let (ok3, v3) := read_cgroup_val env.fs env.cpucg_root key.m_cpu_cgroup
        "cpu.cfs_period_us" value.m_cpu_period
      (ok3 && found_all, { value with m_cpu_period := v3 })
    else (found_all, value)
  if strContains key.m_cpuset_cgroup key.m_container_id then
    let (ok, v) := read_cgroup_list_count env.fsStr env.cpuset_root
      key.m_cpuset_cgroup "cpuset.effective_cpus" value.m_cpuset_cpu_count
    (ok && found_all, { value with m_cpuset_cpu_count := v })
  else (found_all, value)

/-- `delayed_cgroup_lookup::run_impl` (`async_cgroup.cpp`, lines 137–145):
for each dequeued key, run the resolver on a fresh (default-constructed)
value — the default-constructed `delayed_cgroup_value` comes from the header,
which is not among the translated files, so it is the parameter `init` — and
call `store_value` with the resulting value.  The boolean returned by
`get_cgroup_resource_limits` is discarded.  The result lists the
`store_value(key, value)` calls in order. -/
def delayed_cgroup_lookup.run_impl (env : cgroup_env)
    (init : delayed_cgroup_value) (queue : List delayed_cgroup_key) :
    List (delayed_cgroup_key × delayed_cgroup_value) :=
  queue.map (fun key => (key, (get_cgroup_resource_limits env key init).snd))

/-! ## JSON model (the subset of jsoncpp used by `docker_common.cpp`) -/

/-- JSON values, as produced by `Json::Reader` (jsoncpp). -/
inductive Json where
  | null : Json
  | bool : Bool → Json
  | num : Int → Json
  | str : String → Json
  | arr : List Json → Json
  | obj : List (String × Json) → Json

/-- `value[key]` on a `const Json::Value`: member of an object, `null` when
the member is absent or the value is not an object. -/
def Json.get (j : Json) (k : String) : Json :=
  match j with
  | .obj kvs =>
    match kvs.find? (fun p => p.fst = k) with
    | some p => p.snd
    | none => .null
  | _ => .null

/-- `value[i]` on a `const Json::Value` array: `null` when out of range or not
an array. -/
def Json.arrGet (j : Json) (i : Nat) : Json :=
  match j with
  | .arr l => (l.get? i).getD .null
  | _ => .null

/-- `value.isNull()`. -/
def Json.isNull : Json → Bool
  | .null => true
  | _ => false

/-- `value.isArray()`. -/
def Json.isArray : Json → Bool
  | .arr _ => true
  | _ => false

/-- `value.isBool()`. -/
def Json.isBool : Json → Bool
  | .bool _ => true
  | _ => false

/-- `value.isString()`. -/
def Json.isString : Json → Bool
  | .str _ => true
  | _ => false

/-- `value.isMember(key)`. -/
def Json.isMember (j : Json) (k : String) : Bool :=
  match j with
  | .obj kvs => kvs.any (fun p => p.fst = k)
  | _ => false

/-- `value.asString()`: the string itself, `""` for `null` (and for the other
kinds, which the source never converts). -/
def Json.asString : Json → String
  | .str s => s
  | _ => ""

/-- `value.asBool()`. -/
def Json.asBool : Json → Bool
  | .bool b => b
  | _ => false

/-- `value.asInt64()`: the number itself, `0` for `null`, `0`/`1` for booleans. -/
def Json.asInt64 : Json → Int
  | .num n => n
  | .bool b => if b then 1 else 0
  | _ => 0

/-- `value.size()` for arrays. -/
def Json.size (j : Json) : Nat :=
  match j with
  | .arr l => l.length
  | .obj l => l.length
  | _ => 0

/-- Range-for iteration over a `Json::Value`: the elements of an array,
nothing otherwise. -/
def Json.toElems : Json → List Json
  | .arr l => l
  | _ => []

/-- `value.getMemberNames()`: the keys of an object. -/
def Json.getMemberNames : Json → List String
  | .obj kvs => kvs.map Prod.fst
  | _ => []

/-! ## Data model: `sinsp_container_info` and friends (fields used by the
translated sources; the full header is not among them, so unused fields are
omitted and constructor defaults — which no settled claim depends on — are
the zero-like values below) -/

/-- `sinsp_container_info::container_port_mapping`. -/
structure container_port_mapping where
  m_host_ip : Int := 0
  m_host_port : Int := 0
  m_container_port : Int := 0

/-- `sinsp_container_info::container_mount_info`, holding the five JSON values
passed by `parse_json_mounts` (its constructor lives in the missing header). -/
structure container_mount_info where
  source : Json
  dest : Json
  mode : Json
  rw : Json
  propagation : Json

/-- `sinsp_container_info::container_health_probe::probe_type`. -/
inductive probe_type where
  | PT_HEALTHCHECK
  | PT_LIVENESS_PROBE
  | PT_READINESS_PROBE
deriving DecidableEq

/-- `sinsp_container_info::container_health_probe`. -/
structure container_health_probe where
  ptype : probe_type
  exe : String
  args : List String

/-- `sinsp_container_type` (only the constant used by the sources). -/
inductive container_type where
  | CT_DOCKER
  | CT_UNKNOWN
deriving DecidableEq

/-- `sinsp_container_info`: the fields read or written by the translated
sources. -/
structure sinsp_container_info where
  m_type : container_type := .CT_UNKNOWN
  m_id : String := ""
  m_name : String := ""
  m_image : String := ""
  m_imageid : String := ""
  m_imagerepo : String := ""
  m_imagetag : String := ""
  m_imagedigest : String := ""
  m_container_ip : Int := 0
  m_port_mappings : List container_port_mapping := []
  m_labels : List (String × String) := []
  m_env : List String := []
  m_mounts : List container_mount_info := []
  m_health_probes : List container_health_probe := []
  m_memory_limit : Int := 0
  m_swap_limit : Int := 0
  m_cpu_shares : Int := 1024
  m_cpu_quota : Int := 0
  m_cpu_period : Int := 100000
  m_cpuset_cpu_count : Int := 0
  m_privileged : Bool := false
  m_is_pod_sandbox : Bool := false
  m_metadata_complete : Bool := true

/-- A default-constructed `sinsp_container_info`. -/
def container_info_default : sinsp_container_info := {}

/-- `container_lookup_result` (`container_engine/docker.h`,
used by `docker_async_source::run_impl`). -/
structure container_lookup_result where
  m_successful : Bool
  m_container_info : sinsp_container_info

/-! ## `delayed_cgroup_lookup::update` (`async_cgroup.cpp`, lines 147–181) -/

/-- `delayed_cgroup_lookup::update`: look the container up in the manager by
id; when present, write the five limit fields into its record; when absent,
drop the value (the registry is returned unchanged). The manager is modelled
as a map from container id to record, `get_container` as application. -/
def delayed_cgroup_lookup.update (manager : String → Option sinsp_container_info)
    (key : delayed_cgroup_key) (value : delayed_cgroup_value) :
    String → Option sinsp_container_info :=
  match manager key.m_container_id with
  | some container =>
    fun id =>
      if id = key.m_container_id then
        some { container with
          m_memory_limit := value.m_memory_limit,
          m_cpu_shares := value.m_cpu_shares,
          m_cpu_quota := value.m_cpu_quota,
          m_cpu_period := value.m_cpu_period,
          m_cpuset_cpu_count := value.m_cpuset_cpu_count }
      else manager id
  | none => manager

/-! ## `docker_async_source::normalize_arg` (`docker_common.cpp`, lines 151–171) -/

/-- The single-quote character, spelled by code point. -/
def squote : Char := Char.ofNat 39

/-- One pass of the `while(ret.front() == ...)` loop of `normalize_arg`,
driven by fuel.  `none` models a computation with no defined result: either
the fuel ran out while the loop was still running (the loop re-enters the same
state whenever the first character is a quote but the last does not match it,
so it then never exits), or `front()` was read on an empty string (undefined
behavior). -/
def normalize_arg_go : Nat → List Char → Option (List Char)
  | 0, _ => none
  | fuel + 1, ret =>
    match ret with
    | [] => none
    | c :: cs =>
      if c = '"' ∨ c = squote then
        if (c :: cs).getLast (List.cons_ne_nil c cs) = c then
          normalize_arg_go fuel (((c :: cs).dropLast).drop 1)
        else
          normalize_arg_go fuel (c :: cs)
      else some (c :: cs)

/-- `docker_async_source::normalize_arg`: return the argument unchanged when
empty, else strip matching pairs of leading/trailing quote characters.  The
fuel `length + 1` exceeds the number of productive iterations the loop can
make (each removes two characters), so a `none` result means the source loop
never terminates (or reads `front()` of an empty string). -/
def normalize_arg (arg : String) : Option String :=
  if arg = "" then some arg
  else (normalize_arg_go (arg.toList.length + 1) arg.toList).map String.mk

/-! ## Health probes (`docker_common.cpp`, lines 109–332) -/

/-- `docker_async_source::parse_healthcheck`: translate the `Healthcheck`
JSON object into a `PT_HEALTHCHECK` probe.  `none` propagates an undefined
`normalize_arg` computation. -/
def parse_healthcheck (healthcheck_obj : Json)
    (container : sinsp_container_info) : Option sinsp_container_info :=
  if healthcheck_obj.isNull then some container
  else if !healthcheck_obj.isMember "Test" then some container
  else
    let test_obj := healthcheck_obj.get "Test"
    if !test_obj.isArray then some container
    else if test_obj.size = 1 then some container
    else if (test_obj.arrGet 0).asString = "CMD" then do
      let exe ← normalize_arg ((test_obj.arrGet 1).asString)
      let args ← ((List.range test_obj.size).drop 2).mapM
        (fun i => normalize_arg ((test_obj.arrGet i).asString))
      some { container with m_health_probes := container.m_health_probes ++
        [⟨.PT_HEALTHCHECK, exe, args⟩] }
    else if (test_obj.arrGet 0).asString = "CMD-SHELL" then
      some { container with m_health_probes := container.m_health_probes ++
        [⟨.PT_HEALTHCHECK, "/bin/sh", ["-c", (test_obj.arrGet 1).asString]⟩] }
    else some container

/-- `docker_async_source::get_k8s_pod_spec`: extract the first container of
the pod spec stored (stringified) in the k8s last-applied-configuration label.
The JSON parser of the external jsoncpp library is the parameter `pj`.
Returns the spec on success (the C++ returns `bool` plus an out-parameter). -/
def get_k8s_pod_spec (pj : String → Option Json) (config_obj : Json) :
    Option Json :=
  let k8s_label := "annotation.kubectl.kubernetes.io/last-applied-configuration"
  if config_obj.isNull || !config_obj.isMember "Labels" ||
      !(config_obj.get "Labels").isMember k8s_label then none
  else
    let cfg_str := ((config_obj.get "Labels").get k8s_label).asString
    if cfg_str = "" then none
    else
      match pj cfg_str with
      | none => none
      | some cfg =>
        if !cfg.isMember "spec" || !(cfg.get "spec").isMember "containers" ||
            !((cfg.get "spec").get "containers").isArray then none
        else some (((cfg.get "spec").get "containers").arrGet 0)

/-- `docker_async_source::parse_liveness_readiness_probe`.  The returned
`Bool` is the C++ return value; `none` propagates an undefined
`normalize_arg` computation. -/
def parse_liveness_readiness_probe (probe_obj : Json) (ptype : probe_type)
    (container : sinsp_container_info) :
    Option (Bool × sinsp_container_info) :=
  if probe_obj.isNull || !probe_obj.isMember "exec" ||
      !(probe_obj.get "exec").isMember "command" then some (false, container)
  else
    let command_obj := (probe_obj.get "exec").get "command"
    if !command_obj.isNull && command_obj.isArray then do
      let exe ← normalize_arg ((command_obj.arrGet 0).asString)
      let args ← ((List.range command_obj.size).drop 1).mapM
        (fun i => normalize_arg ((command_obj.arrGet i).asString))
      some (true, { container with m_health_probes :=
        container.m_health_probes ++ [⟨ptype, exe, args⟩] })
    else some (true, container)

/-- `docker_async_source::parse_health_probes`: prefer a k8s
liveness/readiness probe; fall back to the Docker healthcheck only when none
was added. -/
def parse_health_probes (pj : String → Option Json) (config_obj : Json)
    (container : sinsp_container_info) : Option sinsp_container_info := do
  let r ←
    match get_k8s_pod_spec pj config_obj with
    | some spec =>
      if spec.isMember "livenessProbe" then
        parse_liveness_readiness_probe (spec.get "livenessProbe")
          .PT_LIVENESS_PROBE container
      else if spec.isMember "readinessProbe" then
        parse_liveness_readiness_probe (spec.get "readinessProbe")
          .PT_READINESS_PROBE container
      else pure (false, container)
    | none => pure (false, container)
  let liveness_readiness_added := r.fst
  let container := r.snd
  if !liveness_readiness_added && config_obj.isMember "Healthcheck" then
    parse_healthcheck (config_obj.get "Healthcheck") container
  else some container

/-! ## `docker_async_source::parse_docker` (`docker_common.cpp`, lines 440–766)

The blocking HTTP transport (`get_docker`/`build_request`, defined in the
platform files that are not among the translated sources) is the parameter
`gd : request → response × body`; the jsoncpp reader is `pj`; the
`sinsp_utils::split_container_image` helper (also not among the translated
sources) is `sci : image → (repo, tag, digest)`; `inet_pton(AF_INET)`
composed with `ntohl` is `pip : String → Option Int` (`none` when `inet_pton`
reports failure, in which case the source asserts and leaves the field).  The
mutable member `m_api_version` is threaded explicitly. -/

/-- `docker_response` (`container_engine/docker.h`). -/
inductive docker_response where
  | RESP_BAD_REQUEST
  | RESP_ERROR
  | RESP_OK
deriving DecidableEq

/-- Modelled from the spec: `docker_async_source::build_request` of the
missing transport layer — a request is identified by the current API-version
prefix followed by the URL path. -/
def build_request (api url : String) : String := api ++ url

/-- Lines 448–491: fetch `/containers/<id>/json`, retrying once without the
API version on `RESP_BAD_REQUEST` (which permanently clears `m_api_version`),
then parse the body.  Returns the new `m_api_version` and the parsed JSON
(`none` when the function would `return false`). -/
def parse_docker_fetch (gd : String → docker_response × String)
    (pj : String → Option Json) (api container_id : String) :
    String × Option Json :=
  let r := gd (build_request api ("/containers/" ++ container_id ++ "/json"))
  match r.fst with
  | .RESP_BAD_REQUEST =>
    let api2 := ""
    let r2 := gd (build_request api2 ("/containers/" ++ container_id ++ "/json"))
    match r2.fst with
    | .RESP_OK => (api2, pj r2.snd)
    | _ => (api2, none)
  | .RESP_ERROR => (api, none)
  | .RESP_OK => (api, pj r.snd)

/-- Lines 493–504: image name, image id (the part of `root["Image"]` after the
first colon, when present), health probes. -/
def parse_docker_config (pj : String → Option Json) (root : Json)
    (container : sinsp_container_info) : Option sinsp_container_info :=
  let config_obj := root.get "Config"
  let container := { container with m_image := (config_obj.get "Image").asString }
  let imgstr := (root.get "Image").asString
  let container :=
    match findChar imgstr.toList ':' with
    | some cpos =>
      { container with m_imageid := String.mk (imgstr.toList.drop (cpos + 1)) }
    | none => container
  parse_health_probes pj config_obj container

/-- `unordered_set::insert` (only membership, size and an arbitrary element of
a singleton are observed). -/
def insertDedup (l : List String) (s : String) : List String :=
  if l.contains s then l else l ++ [s]

/-- Lines 552–569: the `RepoDigests` loop, threading the digest set,
`m_imagerepo` and `m_imagedigest`; `break` on the first repo-digest containing
the current repo. -/
def repo_digests_loop : List Json → List String → String → String →
    List String × String × String
  | [], set, repo, digest => (set, repo, digest)
  | rdig :: rest, set, repo, digest =>
    match rdig with
    | .str repodigest =>
      let dg := substrAfterChar repodigest '@'
      let set := insertDedup set dg
      let repo := if repo = "" then substrUpToChar repodigest '@' else repo
      if strContains repodigest repo then (set, repo, dg)
      else repo_digests_loop rest set repo digest
    | _ => repo_digests_loop rest set repo digest

/-- Lines 570–585: the `RepoTags` loop, threading `m_imagerepo` and
`m_imagetag`; `break` on the first repo-tag containing the current repo. -/
def repo_tags_loop : List Json → String → String → String × String
  | [], repo, tag => (repo, tag)
  | rtag :: rest, repo, tag =>
    match rtag with
    | .str repotag =>
      let repo := if repo = "" then substrUpToLastChar repotag ':' else repo
      if strContains repotag repo then (repo, substrAfterLastChar repotag ':')
      else repo_tags_loop rest repo tag
    | _ => repo_tags_loop rest repo tag

/-- Lines 544–592: processing of a successfully parsed `/images/...` response. -/
def parse_image_info (img_root : Json) (container : sinsp_container_info) :
    sinsp_container_info :=
  let r1 := repo_digests_loop (img_root.get "RepoDigests").toElems []
    container.m_imagerepo container.m_imagedigest
  let imageDigestSet := r1.fst
  let container := { container with
    m_imagerepo := r1.snd.fst,
    m_imagedigest := r1.snd.snd }
  let r2 := repo_tags_loop (img_root.get "RepoTags").toElems
    container.m_imagerepo container.m_imagetag
  let container := { container with m_imagerepo := r2.fst, m_imagetag := r2.snd }
  if container.m_imagedigest = "" ∧ imageDigestSet.length = 1 then
    { container with m_imagedigest := imageDigestSet.headD "" }
  else container

/-- Lines 506–614: the `no_name` heuristic, the `split_container_image` call,
the optional extended image-info fetch (guarded by `m_query_image_info`
first), and the `"latest"` tag default. -/
def parse_docker_image (gd : String → docker_response × String)
    (pj : String → Option Json) (sci : String → String × String × String)
    (m_query_image_info : Bool) (api : String) (root : Json)
    (container : sinsp_container_info) : sinsp_container_info :=
  let imgstr := (root.get "Image").asString
  let no_name := (!(container.m_imageid == "")) &&
    strncmpMinEq container.m_image container.m_imageid
  let no_name := no_name ||
    ((!(imgstr == "")) && strncmpMinEq container.m_image imgstr)
  let container :=
    if !no_name || !m_query_image_info then
      let s := sci container.m_image
      { container with
        m_imagerepo := s.fst,
        m_imagetag := s.snd.fst,
        m_imagedigest := s.snd.snd }
    else container
  let container :=
    if m_query_image_info && !(container.m_imageid == "") &&
        (no_name || container.m_imagedigest == "" ||
          (!(container.m_imagedigest == "") && container.m_imagetag == "")) then
      let r := gd (build_request api
        ("/images/" ++ container.m_imageid ++ "/json?digests=1"))
      match r.fst with
      | .RESP_OK =>
        match pj r.snd with
        | some img_root => parse_image_info img_root container
        | none => container
      | _ => container
    else container
  if container.m_imagetag == "" then { container with m_imagetag := "latest" }
  else container

/-- Lines 616–625: container name, with the leading `/` stripped and the
`k8s_POD` sandbox detection. -/
def parse_docker_name (root : Json) (container : sinsp_container_info) :
    sinsp_container_info :=
  let container := { container with m_name := (root.get "Name").asString }
  let container :=
    match container.m_name.toList with
    | '/' :: rest => { container with m_name := String.mk rest }
    | _ => container
  if startsWithChars container.m_name "k8s_POD" then
    { container with m_is_pod_sandbox := true }
  else container

/-- Lines 627–675: the network section.  When `IPAddress` is empty and the
network mode is `container:<id>`, the secondary container is resolved by a
direct, blocking call to the same resolver (`recurse`, instantiated with
`parse_docker` itself); only `m_container_ip` is copied from a successful
secondary result, and a failed secondary fetch leaves the container unchanged
(the primary resolution proceeds either way). -/
def parse_docker_network
    (recurse : String → String → sinsp_container_info →
      Option (Bool × sinsp_container_info × String))
    (pip : String → Option Int) (root : Json) (api : String)
    (container : sinsp_container_info) :
    Option (sinsp_container_info × String) :=
  let net_obj := root.get "NetworkSettings"
  let ip := (net_obj.get "IPAddress").asString
  if ip == "" then
    let hconfig_obj := root.get "HostConfig"
    let net_mode := (hconfig_obj.get "NetworkMode").asString
    if startsWithChars net_mode "container:" then
      let secondary_container_id := substrAfterChar net_mode ':'
      let pcnt : sinsp_container_info :=
        { container_info_default with m_id := secondary_container_id }
      match recurse api secondary_container_id pcnt with
      | none => none
      | some (true, pcnt2, api2) =>
        some ({ container with m_container_ip := pcnt2.m_container_ip }, api2)
      | some (false, _, api2) => some (container, api2)
    else some (container, api)
  else
    match pip ip with
    | some n => some ({ container with m_container_ip := n }, api)
    | none => some (container, api)

/-- Lines 691–709: inner loop over one port's host bindings (`continue` on an
unparseable `HostIp`). -/
def ports_elem_loop (pip : String → Option Int) (container_port : Int)
    (elems : List Json) (acc : List container_port_mapping) :
    List container_port_mapping :=
  elems.foldl (fun acc v =>
    let ip := (v.get "HostIp").asString
    match pip ip with
    | none => acc
    | some hip =>
      let port := (v.get "HostPort").asString
      acc ++ [{
        m_host_ip := hip,
        m_container_port := container_port,
        m_host_port := (atoi port) % 65536 }]) acc

/-- Lines 677–710: outer loop over the member names of `Ports`, keeping only
`/tcp` entries; `uint16_t` conversions are `% 65536`. -/
def ports_loop (pip : String → Option Int) (ports_obj : Json) :
    List String → List container_port_mapping → List container_port_mapping
  | [], acc => acc
  | name :: rest, acc =>
    if strContains name "/tcp" then
      let container_port := (atoi name) % 65536
      let v := ports_obj.get name
      if v.isArray then
        ports_loop pip ports_obj rest
          (ports_elem_loop pip container_port v.toElems acc)
      else ports_loop pip ports_obj rest acc
    else ports_loop pip ports_obj rest acc

/-- `std::map::operator[]` assignment: replace the value when the key exists,
append otherwise. -/
def mapInsert (m : List (String × String)) (k v : String) :
    List (String × String) :=
  if m.any (fun p => p.fst == k) then
    m.map (fun p => if p.fst == k then (k, v) else p)
  else m ++ [(k, v)]

/-- Lines 712–717: the `Labels` loop. -/
def labels_loop (config_obj : Json) :
    List String → List (String × String) → List (String × String)
  | [], m => m
  | k :: rest, m =>
    let val := ((config_obj.get "Labels").get k).asString
    labels_loop config_obj rest (mapInsert m k val)

/-- `docker::parse_json_mounts` (`docker_common.cpp`, lines 95–107). -/
def docker.parse_json_mounts (mnt_obj : Json)
    (mounts : List container_mount_info) : List container_mount_info :=
  if !mnt_obj.isNull && mnt_obj.isArray then
    mounts ++ mnt_obj.toElems.map (fun mount =>
      { source := mount.get "Source", dest := mount.get "Destination",
        mode := mount.get "Mode", rw := mount.get "RW",
        propagation := mount.get "Propagation" })
  else mounts

/-- Lines 729–753: the `HostConfig` resource fields. -/
def parse_docker_hostconfig (root : Json) (container : sinsp_container_info) :
    sinsp_container_info :=
  let host_config_obj := root.get "HostConfig"
  let container := { container with
    m_memory_limit := (host_config_obj.get "Memory").asInt64,
    m_swap_limit := (host_config_obj.get "MemorySwap").asInt64 }
  let cpu_shares := (host_config_obj.get "CpuShares").asInt64
  let container :=
    if cpu_shares > 0 then { container with m_cpu_shares := cpu_shares }
    else container
  let container :=
    { container with m_cpu_quota := (host_config_obj.get "CpuQuota").asInt64 }
  let cpu_period := (host_config_obj.get "CpuPeriod").asInt64
  let container :=
    if cpu_period > 0 then { container with m_cpu_period := cpu_period }
    else container
  let cpuset_cpus := (host_config_obj.get "CpusetCpus").asString
  let container :=
    if !(cpuset_cpus == "") then
      { container with m_cpuset_cpu_count := cgroup_list_counter cpuset_cpus }
    else container
  let privileged := host_config_obj.get "Privileged"
  if !privileged.isNull && privileged.isBool then
    { container with m_privileged := privileged.asBool }
  else container

/-- Lines 677–755: everything after the network section (ports, labels,
environment, `HostConfig` limits, mounts). -/
def parse_docker_rest (pip : String → Option Int) (root : Json)
    (container : sinsp_container_info) : sinsp_container_info :=
  let net_obj := root.get "NetworkSettings"
  let container := { container with
    m_port_mappings :=
      ports_loop pip (net_obj.get "Ports") (net_obj.get "Ports").getMemberNames
        container.m_port_mappings }
  let config_obj := root.get "Config"
  let container := { container with
    m_labels :=
      labels_loop config_obj (config_obj.get "Labels").getMemberNames
        container.m_labels }
  let container := { container with
    m_env :=
      (config_obj.get "Env").toElems.foldl (fun acc env_var =>
        match env_var with
        | .str s => acc ++ [s]
        | _ => acc) container.m_env }
  let container := parse_docker_hostconfig root container
  { container with
    m_mounts :=
      docker.parse_json_mounts (root.get "Mounts") container.m_mounts }

/-- `docker_async_source::parse_docker`, phases in source order.  The `Nat`
fuel bounds the depth of the secondary-container recursion (the source has no
such bound and would not terminate on a cyclic chain); `none` means the source
computation has no defined result.  The result is (return value, container,
new `m_api_version`). -/
def docker_async_source.parse_docker (gd : String → docker_response × String)
    (pj : String → Option Json) (sci : String → String × String × String)
    (pip : String → Option Int) (m_query_image_info : Bool) :
    Nat → String → String → sinsp_container_info →
    Option (Bool × sinsp_container_info × String)
  | 0, _, _, _ => none
  | fuel + 1, api, container_id, container =>
    match parse_docker_fetch gd pj api container_id with
    | (api2, none) => some (false, container, api2)
    | (api2, some root) =>
      match parse_docker_config pj root container with
      | none => none
      | some c1 =>
        let c2 := parse_docker_image gd pj sci m_query_image_info api2 root c1
        let c3 := parse_docker_name root c2
        match parse_docker_network
            (docker_async_source.parse_docker gd pj sci pip m_query_image_info
              fuel)
            pip root api2 c3 with
        | none => none
        | some (c4, api3) => some (true, parse_docker_rest pip root c4, api3)

/-! ## `docker_async_source::run_impl` (`docker_common.cpp`, lines 54–91) -/

/-- `docker_async_source::run_impl`: for each dequeued container id, build a
`container_lookup_result` with `m_successful = true`, `m_type = CT_DOCKER`
and `m_id` set, run `parse_docker` on its `m_container_info` (clearing
`m_successful` when it fails), and `store_value` the result either way.  The
output lists the `store_value` calls in order together with the final
`m_api_version`; `none` propagates an undefined `parse_docker` computation. -/
def docker_async_source.run_impl (gd : String → docker_response × String)
    (pj : String → Option Json) (sci : String → String × String × String)
    (pip : String → Option Int) (m_query_image_info : Bool) (fuel : Nat) :
    String → List String →
    Option (List (String × container_lookup_result) × String)
  | api, [] => some ([], api)
  | api, container_id :: queue =>
    let info0 : sinsp_container_info :=
      { container_info_default with m_type := .CT_DOCKER, m_id := container_id }
    match docker_async_source.parse_docker gd pj sci pip m_query_image_info
        fuel api container_id info0 with
    | none => none
    | some (ok, info, api2) =>
      match docker_async_source.run_impl gd pj sci pip m_query_image_info
          fuel api2 queue with
      | none => none
      | some (stores, api3) =>
        some ((container_id, ⟨ok, info⟩) :: stores, api3)

/-- `docker_async_source::set_query_image_info` (`docker_common.cpp`, lines
334–341): the unique writer of the static flag `m_query_image_info`; returns
the flag's new value. -/
def docker_async_source.set_query_image_info (query_image_info : Bool) : Bool :=
  query_image_info

/-! ## `docker::parse_docker_async` and `docker::resolve`
(`docker_common.cpp`, lines 345–438) -/

/-- Modelled from the spec: the synchronous path of
`async_key_value_source::lookup` — the generic engine is not among the
translated sources.  Per §4.1 of the spec, when a fresh cache entry exists the
call writes it into the out-value and returns `true` without invoking the
newly registered callback; otherwise it registers the callback and (with a
zero wait budget) returns `false`.  Result: (returned `true`?, value written,
number of invocations of the registered callback performed by the engine
inside the call — zero on both paths). -/
def engine_lookup (cache : String → Option container_lookup_result)
    (key : String) : Bool × Option container_lookup_result × Nat :=
  match cache key with
  | some v => (true, some v, 0)
  | none => (false, none, 0)

/-- `docker::parse_docker_async`: register the callback `cb` (which calls
`manager->notify_new_container` when the result is successful) through
`m_docker_info_source->lookup`; when `lookup` returns `true`, invoke
`cb(container_id, result)` directly ("if a previous lookup call already found
the metadata, process it now").  Result: (total number of invocations of `cb`
during the call, container ids passed to `notify_new_container` by those
invocations). -/
def docker.parse_docker_async (cache : String → Option container_lookup_result)
    (container_id : String) : Nat × List String :=
  let r := engine_lookup cache container_id
  if r.fst then
    (r.snd.snd + 1,
      match r.snd.fst with
      | some res => if res.m_successful then [container_id] else []
      | none => [])
  else (r.snd.snd, [])

/-- Observable actions of `docker::resolve` on its collaborators, in program
order. -/
inductive resolve_action where
  | add_container : sinsp_container_info → resolve_action
  | start_async_lookup : String → resolve_action

/-- `docker::s_incomplete_info_name` (`docker_common.cpp`, line 343). -/
def docker.s_incomplete_info_name : String := "incomplete"

/-- `docker::resolve`: `detect_docker` (declared in headers not among the
translated sources) is abstracted as its outcome `detect = some (id, name)`
or `none`; the container manager as a map from id to record.  When detection
succeeds and no record exists, a stub record (id, name, all five image fields
`"incomplete"`, `m_metadata_complete = false`) is added to the manager, and
only then — when the (re-read) record is incomplete and
`query_os_for_missing_info` holds — is `parse_docker_async` invoked.  The
return value is the record's `m_metadata_complete`.  Result: (return value,
new manager state, actions in order).  The lazy construction of the async
source (lines 355–362) has no observable effect here and is dropped, as is
the `tinfo->m_container_id` assignment (the thread table is outside this
model). -/
def docker.resolve (manager : String → Option sinsp_container_info)
    (detect : Option (String × String)) (query_os_for_missing_info : Bool) :
    Bool × (String → Option sinsp_container_info) × List resolve_action :=
  match detect with
  | none => (false, manager, [])
  | some (container_id, container_name) =>
    match manager container_id with
    | some existing_container_info =>
      if !existing_container_info.m_metadata_complete &&
          query_os_for_missing_info then
        (existing_container_info.m_metadata_complete, manager,
          [.start_async_lookup container_id])
      else (existing_container_info.m_metadata_complete, manager, [])
    | none =>
      let container_info : sinsp_container_info :=
        { container_info_default with
          m_type := .CT_DOCKER,
          m_id := container_id,
          m_name := container_name,
          m_image := docker.s_incomplete_info_name,
          m_imageid := docker.s_incomplete_info_name,
          m_imagerepo := docker.s_incomplete_info_name,
          m_imagetag := docker.s_incomplete_info_name,
          m_imagedigest := docker.s_incomplete_info_name,
          m_metadata_complete := false }
      let manager2 := fun id =>
        if id = container_id then some container_info else manager id
      if query_os_for_missing_info then
        (false, manager2,
          [.add_container container_info, .start_async_lookup container_id])
      else (false, manager2, [.add_container container_info])

/-! ## Claim theorems -/

/-- Claim C10: `read_cgroup_val` returns `true` iff the parsed integer `v`
satisfies `0 < v ≤ 2 ^ 42 - 1`; a value of exactly `0` is rejected (despite
the documented range `[0; CGROUP_VAL_MAX)`), the `-1` left by an unreadable
file is rejected, and whenever it returns `false` the output parameter is
left unchanged. -/
theorem C10_read_cgroup_val (fs : String → Int)
    (subsys cgroup filename : String) (out : Int) :
    ((read_cgroup_val fs subsys cgroup filename out).fst = true ↔
      (0 < fs (subsys ++ "/" ++ cgroup ++ "/" ++ filename) ∧
        fs (subsys ++ "/" ++ cgroup ++ "/" ++ filename) ≤ 2 ^ 42 - 1)) ∧
    (fs (subsys ++ "/" ++ cgroup ++ "/" ++ filename) = 0 →
      (read_cgroup_val fs subsys cgroup filename out).fst = false) ∧
    (fs (subsys ++ "/" ++ cgroup ++ "/" ++ filename) = -1 →
      (read_cgroup_val fs subsys cgroup filename out).fst = false) ∧
    ((read_cgroup_val fs subsys cgroup filename out).fst = false →
      (read_cgroup_val fs subsys cgroup filename out).snd = out) := by
  simp only [read_cgroup_val, CGROUP_VAL_MAX]
  split_ifs with h
  · refine ⟨by simp; omega, fun _ => rfl, fun _ => rfl, fun _ => rfl⟩
  · refine ⟨by simp; omega, fun h0 => absurd (Or.inl (le_of_eq h0)) h,
      fun h1 => absurd (Or.inl (by omega)) h, fun hf => by simp at hf⟩

/-- Witness for C10 at a file reading `0`: rejected, output untouched. -/
theorem C10_read_cgroup_val_witness :
    (read_cgroup_val (fun _ => 0) "sys" "cg" "f" 7).fst = false ∧
    (read_cgroup_val (fun _ => 0) "sys" "cg" "f" 7).snd = 7 := by
  have h := C10_read_cgroup_val (fun _ => 0) "sys" "cg" "f" 7
  exact ⟨h.2.1 rfl, h.2.2.2 (h.2.1 rfl)⟩

/-- The key of the C3 scenario. -/
def keyC3 : delayed_cgroup_key :=
  ⟨"abc", "/docker/abc", "/docker/abc", "/docker/abc"⟩

/-- The cgroup filesystem of the C3 scenario. -/
def envC3 : cgroup_env :=
  { memcg_root := "/sys/fs/cgroup/memory",
    cpucg_root := "/sys/fs/cgroup/cpu",
    cpuset_root := "/sys/fs/cgroup/cpuset",
    fs := fun p =>
      if p = "/sys/fs/cgroup/memory//docker/abc/memory.limit_in_bytes" then
        536870912
      else if p = "/sys/fs/cgroup/cpu//docker/abc/cpu.shares" then 1024
      else if p = "/sys/fs/cgroup/cpu//docker/abc/cpu.cfs_quota_us" then 200000
      else if p = "/sys/fs/cgroup/cpu//docker/abc/cpu.cfs_period_us" then 100000
      else -1,
    fsStr := fun p =>
      if p = "/sys/fs/cgroup/cpuset//docker/abc/cpuset.effective_cpus" then
        "0-3"
      else "" }

/-- Claim C3: for the key (container `"abc"`, all three cgroups
`"/docker/abc"`) with the scenario's file contents, the resolver produces
`{memory_limit = 536870912, cpu_shares = 1024, cpu_quota = 200000,
cpu_period = 100000, cpuset_cpu_count = 4}` and returns `true`, whatever the
initial value record held. -/
theorem C3_scenario (init : delayed_cgroup_value) :
    get_cgroup_resource_limits envC3 keyC3 init =
      (true, ⟨536870912, 1024, 200000, 100000, 4⟩) := by
  cases init
  rfl

/-- Claim C5: `delayed_cgroup_lookup::update` writes the five limit fields
into the container record iff the registry still returns a record for the
container id; when the record is gone the resolved value is silently dropped
and the registry is left unchanged. -/
theorem C5_update (manager : String → Option sinsp_container_info)
    (key : delayed_cgroup_key) (value : delayed_cgroup_value) :
    (∀ c, manager key.m_container_id = some c →
      delayed_cgroup_lookup.update manager key value key.m_container_id =
        some { c with
          m_memory_limit := value.m_memory_limit,
          m_cpu_shares := value.m_cpu_shares,
          m_cpu_quota := value.m_cpu_quota,
          m_cpu_period := value.m_cpu_period,
          m_cpuset_cpu_count := value.m_cpuset_cpu_count } ∧
      ∀ id, id ≠ key.m_container_id →
        delayed_cgroup_lookup.update manager key value id = manager id) ∧
    (manager key.m_container_id = none →
      delayed_cgroup_lookup.update manager key value = manager) := by
  constructor
  · intro c hc
    refine ⟨by simp [delayed_cgroup_lookup.update, hc], fun id hid => ?_⟩
    simp [delayed_cgroup_lookup.update, hc, hid]
  · intro h
    simp [delayed_cgroup_lookup.update, h]

/-- A registry holding one record, for the C5 witness. -/
def managerC5 : String → Option sinsp_container_info :=
  fun id => if id = "abc" then some container_info_default else none

/-- Witness for C5: the present record is rewritten, another id is untouched. -/
theorem C5_update_witness :
    delayed_cgroup_lookup.update managerC5 ⟨"abc", "m", "c", "s"⟩
        ⟨1, 2, 3, 4, 5⟩ "abc" =
      some { container_info_default with
        m_memory_limit := 1, m_cpu_shares := 2, m_cpu_quota := 3,
        m_cpu_period := 4, m_cpuset_cpu_count := 5 } ∧
    delayed_cgroup_lookup.update managerC5 ⟨"abc", "m", "c", "s"⟩
        ⟨1, 2, 3, 4, 5⟩ "xyz" = managerC5 "xyz" := by
  have h := (C5_update managerC5 ⟨"abc", "m", "c", "s"⟩ ⟨1, 2, 3, 4, 5⟩).1
    container_info_default (by simp [managerC5])
  exact ⟨h.1, h.2 "xyz" (by simp)⟩

/-- Claim C9 (code bug): `normalize_arg` does not terminate on every input.
On `"abc` — first character a double quote, last character not a quote — the
loop body makes no progress, so the fueled loop returns `none` for every
fuel, and `normalize_arg` has no defined result. -/
theorem C9_normalize_arg_diverges :
    (∀ fuel, normalize_arg_go fuel "\"abc".toList = none) ∧
    normalize_arg "\"abc" = none := by
  have key : ∀ fuel, normalize_arg_go fuel "\"abc".toList = none := by
    intro fuel
    induction fuel with
    | zero => rfl
    | succ n ih => exact ih
  exact ⟨key, by simpa [normalize_arg] using key 5⟩

/-- The cache of the C1 counterexample: a fresh, successful entry for
`"abc"`. -/
def cacheC1 : String → Option container_lookup_result :=
  fun id => if id = "abc" then some ⟨true, container_info_default⟩ else none

/-- Claim C1 (counterexample): with a fresh cache entry for `"abc"`, `lookup`
returns `true`, yet the callback registered by that same
`parse_docker_async` call is invoked (once, by `parse_docker_async` itself,
lines 428–432) — refuting "the callback it registered must not be invoked
for that call". -/
theorem C1_counterexample :
    ¬ ((engine_lookup cacheC1 "abc").fst = true →
        (docker.parse_docker_async cacheC1 "abc").fst = 0) := by
  intro h
  have := h rfl
  simp [docker.parse_docker_async, engine_lookup, cacheC1] at this

/-- Claim C1 (amended): the engine itself invokes the callback zero times
inside a `lookup` call, and `parse_docker_async` invokes the callback it
registered exactly once when `lookup` returns `true` (processing the cached
result on the spot), and not at all otherwise. -/
theorem C1_sync_hit_callback (cache : String → Option container_lookup_result)
    (container_id : String) :
    (engine_lookup cache container_id).snd.snd = 0 ∧
    (docker.parse_docker_async cache container_id).fst =
      (if (engine_lookup cache container_id).fst then 1 else 0) := by
  unfold docker.parse_docker_async engine_lookup
  cases cache container_id <;> simp

/-- Claim C2 (amended): for a key all of whose cgroup paths contain the
container id, `get_cgroup_resource_limits` returns `true` iff every attempted
field read succeeded; each of the four scalar fields is populated from its
own read and left unset when its value is out of range — one bad field never
discards the whole record — while the cpuset count field is always
overwritten with the list-counter result, even when that read fails; a
`memory.limit_in_bytes` reading of 9223372036854771712 makes the overall
result `false` while the other fields are still populated from their own
reads. -/
theorem C2_get_limits (env : cgroup_env) (key : delayed_cgroup_key)
    (init : delayed_cgroup_value) (mv sv qv pv cc : Int)
    (hm : strContains key.m_mem_cgroup key.m_container_id = true)
    (hc : strContains key.m_cpu_cgroup key.m_container_id = true)
    (hs : strContains key.m_cpuset_cgroup key.m_container_id = true)
    (hmv : env.fs (env.memcg_root ++ "/" ++ key.m_mem_cgroup ++ "/" ++
      "memory.limit_in_bytes") = mv)
    (hsv : env.fs (env.cpucg_root ++ "/" ++ key.m_cpu_cgroup ++ "/" ++
      "cpu.shares") = sv)
    (hqv : env.fs (env.cpucg_root ++ "/" ++ key.m_cpu_cgroup ++ "/" ++
      "cpu.cfs_quota_us") = qv)
    (hpv : env.fs (env.cpucg_root ++ "/" ++ key.m_cpu_cgroup ++ "/" ++
      "cpu.cfs_period_us") = pv)
    (hcc : cgroup_list_counter (env.fsStr (env.cpuset_root ++ "/" ++
      key.m_cpuset_cgroup ++ "/" ++ "cpuset.effective_cpus")) = cc) :
    ((get_cgroup_resource_limits env key init).fst = true ↔
      ((0 < mv ∧ mv ≤ CGROUP_VAL_MAX) ∧ (0 < sv ∧ sv ≤ CGROUP_VAL_MAX) ∧
        (0 < qv ∧ qv ≤ CGROUP_VAL_MAX) ∧ (0 < pv ∧ pv ≤ CGROUP_VAL_MAX) ∧
        0 < cc)) ∧
    (get_cgroup_resource_limits env key init).snd.m_memory_limit =
      (if mv ≤ 0 ∨ mv > CGROUP_VAL_MAX then init.m_memory_limit else mv) ∧
    (get_cgroup_resource_limits env key init).snd.m_cpu_shares =
      (if sv ≤ 0 ∨ sv > CGROUP_VAL_MAX then init.m_cpu_shares else sv) ∧
    (get_cgroup_resource_limits env key init).snd.m_cpu_quota =
      (if qv ≤ 0 ∨ qv > CGROUP_VAL_MAX then init.m_cpu_quota else qv) ∧
    (get_cgroup_resource_limits env key init).snd.m_cpu_period =
      (if pv ≤ 0 ∨ pv > CGROUP_VAL_MAX then init.m_cpu_period else pv) ∧
    (get_cgroup_resource_limits env key init).snd.m_cpuset_cpu_count = cc ∧
    (mv = 9223372036854771712 →
      (get_cgroup_resource_limits env key init).fst = false) := by
  have hmax : CGROUP_VAL_MAX = 4398046511103 := by norm_num [CGROUP_VAL_MAX]
  simp only [get_cgroup_resource_limits, read_cgroup_val, read_cgroup_list_count,
    hm, hc, hs, hmv, hsv, hqv, hpv, hcc, if_true, hmax]
  refine ⟨?_, ?_, ?_, ?_, ?_, ?_, ?_⟩ <;>
    first
      | trivial
      | (intro h92; subst h92; split_ifs <;> simp <;> omega)
      | (split_ifs <;> simp <;> try omega)

/-- Filesystem for the C2 counterexample: every numeric read fails, every
text read is empty. -/
def envC2cx : cgroup_env := ⟨"", "", "", fun _ => -1, fun _ => ""⟩

/-- Key for the C2 counterexample: only the cpuset cgroup path contains the
container id. -/
def keyC2cx : delayed_cgroup_key := ⟨"abc", "zzz", "zzz", "/docker/abc"⟩

/-- Claim C2 (counterexample): a failed cpuset read does not leave the field
unset — `read_cgroup_list_count` assigns the counter result before checking
it, so the stored cpuset count becomes `-1` although the initial value held
`7`, refuting "a field whose value is out of range is discarded (that field
of the output value is left unset)". -/
theorem C2_counterexample :
    get_cgroup_resource_limits envC2cx keyC2cx ⟨7, 7, 7, 7, 7⟩ =
      (false, ⟨7, 7, 7, 7, -1⟩) ∧
    ¬ ((get_cgroup_resource_limits envC2cx keyC2cx ⟨7, 7, 7, 7, 7⟩).snd.m_cpuset_cpu_count =
        (⟨7, 7, 7, 7, 7⟩ : delayed_cgroup_value).m_cpuset_cpu_count) := by
  decide

/-- Filesystem for the C2 witness: the near-unlimited memory sentinel, sound
cpu values, cpuset `"0-3"`. -/
def envC2w : cgroup_env :=
  { memcg_root := "/sys/fs/cgroup/memory",
    cpucg_root := "/sys/fs/cgroup/cpu",
    cpuset_root := "/sys/fs/cgroup/cpuset",
    fs := fun p =>
      if p = "/sys/fs/cgroup/memory//docker/abc/memory.limit_in_bytes" then
        9223372036854771712
      else if p = "/sys/fs/cgroup/cpu//docker/abc/cpu.shares" then 1024
      else if p = "/sys/fs/cgroup/cpu//docker/abc/cpu.cfs_quota_us" then 200000
      else if p = "/sys/fs/cgroup/cpu//docker/abc/cpu.cfs_period_us" then 100000
      else -1,
    fsStr := fun p =>
      if p = "/sys/fs/cgroup/cpuset//docker/abc/cpuset.effective_cpus" then
        "0-3"
      else "" }

/-- Key for the C2 witness. -/
def keyC2w : delayed_cgroup_key :=
  ⟨"abc", "/docker/abc", "/docker/abc", "/docker/abc"⟩

/-- Witness for C2: the oversized memory sentinel makes the overall result
`false` while the cpu and cpuset fields are populated from their own reads. -/
theorem C2_get_limits_witness :
    (get_cgroup_resource_limits envC2w keyC2w ⟨0, 0, 0, 0, 0⟩).fst = false ∧
    (get_cgroup_resource_limits envC2w keyC2w ⟨0, 0, 0, 0, 0⟩).snd.m_cpu_shares = 1024 ∧
    (get_cgroup_resource_limits envC2w keyC2w ⟨0, 0, 0, 0, 0⟩).snd.m_cpuset_cpu_count = 4 := by
  have h := C2_get_limits envC2w keyC2w ⟨0, 0, 0, 0, 0⟩
    9223372036854771712 1024 200000 100000 4
    (by decide) (by decide) (by decide) rfl rfl rfl rfl (by decide)
  refine ⟨h.2.2.2.2.2.2 rfl, ?_, h.2.2.2.2.2.1⟩
  rw [h.2.2.1]
  norm_num [CGROUP_VAL_MAX]

/-- Claim C4 (amended): in both worker loops every dequeued key leads to
exactly one `store_value` call, in queue order, and resolver failure never
suppresses the store.  In `docker_async_source::run_impl` the stored value's
`m_successful` flag is exactly the resolver's return value; in
`delayed_cgroup_lookup::run_impl` the resolver's boolean outcome is discarded
and the stored `delayed_cgroup_value` carries no success indicator. -/
theorem C4_store_per_key :
    (∀ (gd : String → docker_response × String) (pj : String → Option Json)
      (sci : String → String × String × String) (pip : String → Option Int)
      (qii : Bool) (fuel : Nat) (api : String) (queue : List String)
      (out : List (String × container_lookup_result) × String),
      docker_async_source.run_impl gd pj sci pip qii fuel api queue = some out →
      out.fst.map Prod.fst = queue ∧
      ∀ p ∈ out.fst, ∃ api0 info api1,
        docker_async_source.parse_docker gd pj sci pip qii fuel api0 p.fst
          { container_info_default with m_type := .CT_DOCKER, m_id := p.fst } =
          some (p.snd.m_successful, info, api1) ∧
        p.snd.m_container_info = info) ∧
    (∀ (env : cgroup_env) (init : delayed_cgroup_value)
      (queue : List delayed_cgroup_key),
      (delayed_cgroup_lookup.run_impl env init queue).map Prod.fst = queue ∧
      ∀ p ∈ delayed_cgroup_lookup.run_impl env init queue,
        p.snd = (get_cgroup_resource_limits env p.fst init).snd) := by
  constructor
  · intro gd pj sci pip qii fuel api queue out h
    induction queue generalizing api out with
    | nil =>
      simp only [docker_async_source.run_impl, Option.some.injEq] at h
      subst h
      exact ⟨rfl, by simp⟩
    | cons id rest ih =>
      rw [docker_async_source.run_impl] at h
      cases hp : docker_async_source.parse_docker gd pj sci pip qii fuel api id
        { container_info_default with m_type := .CT_DOCKER, m_id := id } with
      | none => simp [hp] at h
      | some r =>
        obtain ⟨ok, info, api2⟩ := r
        simp only [hp] at h
        cases hr : docker_async_source.run_impl gd pj sci pip qii fuel api2 rest with
        | none => simp [hr] at h
        | some out2 =>
          obtain ⟨stores, api3⟩ := out2
          simp only [hr, Option.some.injEq] at h
          subst h
          obtain ⟨hmap, hall⟩ := ih api2 (stores, api3) hr
          refine ⟨by simpa using hmap, ?_⟩
          intro p hp2
          rcases List.mem_cons.mp hp2 with h0 | h0
          · subst h0
            exact ⟨api, info, api2, hp, rfl⟩
          · exact hall p h0
  · intro env init queue
    refine ⟨by induction queue <;> simp_all [delayed_cgroup_lookup.run_impl], ?_⟩
    intro p hp
    simp only [delayed_cgroup_lookup.run_impl, List.mem_map] at hp
    obtain ⟨k, _, hk⟩ := hp
    subst hk
    rfl

/-- Filesystem/environment for the C4 counterexample: every numeric read
fails. -/
def envC4 : cgroup_env := ⟨"", "", "", fun _ => -1, fun _ => ""⟩

/-- C4 counterexample key whose memory read is attempted (and fails). -/
def keyC4a : delayed_cgroup_key := ⟨"abc", "/docker/abc", "zzz", "zzz"⟩

/-- C4 counterexample key for which no read is attempted (resolver succeeds). -/
def keyC4b : delayed_cgroup_key := ⟨"abc", "zzz", "zzz", "zzz"⟩

/-- Claim C4 (counterexample): in `delayed_cgroup_lookup::run_impl` the
resolver's outcome is discarded — `keyC4a` resolves with outcome `false` and
`keyC4b` with outcome `true`, yet both `store_value` calls receive the
identical value, so the stored value carries no indicator reflecting the
resolver's outcome. -/
theorem C4_counterexample :
    (get_cgroup_resource_limits envC4 keyC4a ⟨0, 0, 0, 0, 0⟩).fst = false ∧
    (get_cgroup_resource_limits envC4 keyC4b ⟨0, 0, 0, 0, 0⟩).fst = true ∧
    (get_cgroup_resource_limits envC4 keyC4a ⟨0, 0, 0, 0, 0⟩).snd =
      (get_cgroup_resource_limits envC4 keyC4b ⟨0, 0, 0, 0, 0⟩).snd ∧
    delayed_cgroup_lookup.run_impl envC4 ⟨0, 0, 0, 0, 0⟩ [keyC4a, keyC4b] =
      [(keyC4a, ⟨0, 0, 0, 0, 0⟩), (keyC4b, ⟨0, 0, 0, 0, 0⟩)] := by
  decide

/-- Witness for C4: a one-element queue whose container fetch fails is still
stored, flagged unsuccessful. -/
theorem C4_store_per_key_witness :
    ([(("zzz" : String),
        (⟨false, { container_info_default with
          m_type := .CT_DOCKER,
          m_id := "zzz" }⟩ : container_lookup_result))].map Prod.fst =
      ["zzz"] ∧
     ∀ p ∈ [(("zzz" : String),
        (⟨false, { container_info_default with
          m_type := .CT_DOCKER,
          m_id := "zzz" }⟩ : container_lookup_result))],
       ∃ api0 info api1,
        docker_async_source.parse_docker (fun _ => (.RESP_ERROR, ""))
          (fun _ => none) (fun _ => ("", "", "")) (fun _ => none) false 1
          api0 p.fst
          { container_info_default with m_type := .CT_DOCKER, m_id := p.fst } =
          some (p.snd.m_successful, info, api1) ∧
        p.snd.m_container_info = info) :=
  C4_store_per_key.1 (fun _ => (.RESP_ERROR, "")) (fun _ => none)
    (fun _ => ("", "", "")) (fun _ => none) false 1 "/v1.24" ["zzz"]
    ([(("zzz" : String),
        (⟨false, { container_info_default with
          m_type := .CT_DOCKER,
          m_id := "zzz" }⟩ : container_lookup_result))], "/v1.24") rfl

/-- The stub record published by `docker::resolve` for a newly detected
container. -/
def resolve_stub (container_id container_name : String) :
    sinsp_container_info :=
  { container_info_default with
    m_type := .CT_DOCKER,
    m_id := container_id,
    m_name := container_name,
    m_image := docker.s_incomplete_info_name,
    m_imageid := docker.s_incomplete_info_name,
    m_imagerepo := docker.s_incomplete_info_name,
    m_imagetag := docker.s_incomplete_info_name,
    m_imagedigest := docker.s_incomplete_info_name,
    m_metadata_complete := false }

/-- Claim C8: when `detect_docker` finds a container id with no existing
record, `resolve` publishes the provisional record — id, detected name, all
five image fields `"incomplete"`, metadata incomplete — before any
asynchronous lookup is started (the `add_container` action precedes any
`start_async_lookup` action), and returns `false` (the stub's completeness);
with a pre-existing record, no record is added and the return value is that
record's `m_metadata_complete`. -/
theorem C8_resolve_stub (manager : String → Option sinsp_container_info)
    (container_id container_name : String) (q : Bool) :
    (manager container_id = none →
      docker.resolve manager (some (container_id, container_name)) q =
        (false,
         fun id => if id = container_id then
             some (resolve_stub container_id container_name)
           else manager id,
         .add_container (resolve_stub container_id container_name) ::
           (if q then [.start_async_lookup container_id] else []))) ∧
    (∀ existing, manager container_id = some existing →
      (docker.resolve manager (some (container_id, container_name)) q).fst =
        existing.m_metadata_complete ∧
      (docker.resolve manager (some (container_id, container_name)) q).snd.fst =
        manager ∧
      ∀ info, resolve_action.add_container info ∉
        (docker.resolve manager (some (container_id, container_name)) q).snd.snd) := by
  constructor
  · intro h
    cases q <;> simp [docker.resolve, h, resolve_stub]
  · intro existing h
    cases hq : (!existing.m_metadata_complete && q) <;>
      simp [docker.resolve, h, hq]

/-- Witness for C8: an empty registry receives the stub and the lookup
starts afterwards. -/
theorem C8_resolve_stub_witness :
    docker.resolve (fun _ => none) (some ("abc", "mycontainer")) true =
      (false,
       fun id => if id = "abc" then some (resolve_stub "abc" "mycontainer")
         else none,
       [.add_container (resolve_stub "abc" "mycontainer"),
        .start_async_lookup "abc"]) :=
  (C8_resolve_stub (fun _ => none) "abc" "mycontainer" true).1 rfl

/-- A list is a prefix of itself followed by anything. -/
theorem isPrefixOfChars_append : ∀ (p s : List Char),
    isPrefixOfChars p (p ++ s) = true
  | [], _ => rfl
  | c :: cs, s => by
    simp [isPrefixOfChars, isPrefixOfChars_append cs s]

/-- A character found in `p` is found at the same index in `p ++ s`. -/
theorem findChar_append_of_some : ∀ (p s : List Char) (c : Char) (i : Nat),
    findChar p c = some i → findChar (p ++ s) c = some i
  | [], _, _, _, h => by simp [findChar] at h
  | a :: as, s, c, i, h => by
    rw [List.cons_append, findChar]
    rw [findChar] at h
    by_cases hac : a = c
    · simpa [hac] using h
    · simp only [hac, if_false] at h ⊢
      cases hfc : findChar as c with
      | none => rw [hfc] at h; simp at h
      | some j =>
        rw [hfc] at h
        rw [findChar_append_of_some as s c j hfc]
        simpa using h

/-- The id after the `container:` prefix of a network mode, as extracted by
`substr(find(":") + 1)`. -/
theorem substrAfterChar_container (sid : String) :
    substrAfterChar ("container:" ++ sid) ':' = sid := by
  have hdata : ("container:" ++ sid).toList = "container:".toList ++ sid.toList :=
    String.data_append _ _
  have hfind : findChar ("container:" ++ sid).toList ':' = some 9 := by
    rw [hdata]
    exact findChar_append_of_some _ _ _ _ (by decide)
  rw [substrAfterChar, hfind]
  show String.mk (("container:" ++ sid).toList.drop 10) = sid
  rw [hdata]
  have : ("container:".toList ++ sid.toList).drop 10 = sid.toList := by
    simpa using List.drop_left "container:".toList sid.toList
  rw [this]
  rfl

/-- Claim C6: when `NetworkSettings.IPAddress` is empty and
`HostConfig.NetworkMode` is `container:<sid>`, the network section resolves
the secondary container by invoking `parse_docker` itself directly (no queue
is involved); on success of the nested call exactly the `m_container_ip`
field is copied from the secondary result into the primary container, and on
failure the primary container is unchanged and the primary resolution still
proceeds (the section does not fail). -/
theorem C6_secondary_container (gd : String → docker_response × String)
    (pj : String → Option Json) (sci : String → String × String × String)
    (pip : String → Option Int) (qii : Bool) (fuel : Nat) (root : Json)
    (api : String) (container : sinsp_container_info) (sid : String)
    (hip : ((root.get "NetworkSettings").get "IPAddress").asString = "")
    (hmode : ((root.get "HostConfig").get "NetworkMode").asString =
      "container:" ++ sid) :
    parse_docker_network
        (docker_async_source.parse_docker gd pj sci pip qii fuel)
        pip root api container =
      (match docker_async_source.parse_docker gd pj sci pip qii fuel api sid
          { container_info_default with m_id := sid } with
       | none => none
       | some (true, pcnt2, api2) =>
         some ({ container with m_container_ip := pcnt2.m_container_ip }, api2)
       | some (false, _, api2) => some (container, api2)) := by
  have hsw : startsWithChars ("container:" ++ sid) "container:" = true := by
    have h2 : ("container:" ++ sid).toList =
        "container:".toList ++ sid.toList := String.data_append _ _
    rw [startsWithChars, h2]
    exact isPrefixOfChars_append _ _
  simp only [parse_docker_network, hip, hmode, hsw, substrAfterChar_container,
    if_true]
  simp

/-- Secondary container JSON for the C6 witness: a plain IP address. -/
def rootSecondaryW : Json :=
  .obj [("NetworkSettings", .obj [("IPAddress", .str "10.0.0.5")])]

/-- Primary container JSON for the C6 witness: empty IP address and network
mode `container:xyz`. -/
def rootPrimaryW : Json :=
  .obj [("NetworkSettings", .obj [("IPAddress", .str "")]),
        ("HostConfig", .obj [("NetworkMode", .str "container:xyz")])]

/-- Transport for the C6 witness: only the secondary container request
succeeds. -/
def gdC6 : String → docker_response × String :=
  fun r =>
    if r = "/v1.24/containers/xyz/json" then (.RESP_OK, "SECONDARY")
    else (.RESP_ERROR, "")

/-- JSON parser for the C6 witness. -/
def pjC6 : String → Option Json :=
  fun s => if s = "SECONDARY" then some rootSecondaryW else none

/-- `inet_pton` model for the C6 witness: `10.0.0.5` in host order. -/
def pipC6 : String → Option Int :=
  fun s => if s = "10.0.0.5" then some 167772165 else none

/-- Witness for C6: the nested direct fetch of container `xyz` succeeds and
exactly the secondary ip is copied into the primary record. -/
theorem C6_secondary_container_witness :
    parse_docker_network
        (docker_async_source.parse_docker gdC6 pjC6 (fun _ => ("", "", ""))
          pipC6 false 1)
        pipC6 rootPrimaryW "/v1.24" container_info_default =
      some ({ container_info_default with m_container_ip := 167772165 },
        "/v1.24") := by
  rw [C6_secondary_container gdC6 pjC6 (fun _ => ("", "", "")) pipC6 false 1
    rootPrimaryW "/v1.24" container_info_default "xyz" rfl rfl]
  rfl

/-- With the extended image query disabled, `parse_docker_image` makes no
HTTP request, so its result does not depend on the transport. -/
theorem parse_docker_image_no_query (gd1 gd2 : String → docker_response × String)
    (pj : String → Option Json) (sci : String → String × String × String)
    (api : String) (root : Json) (container : sinsp_container_info) :
    parse_docker_image gd1 pj sci false api root container =
      parse_docker_image gd2 pj sci false api root container := by
  simp [parse_docker_image]

/-- Two transports agreeing on every `/containers/<id>/json` request make
`parse_docker_fetch` agree. -/
theorem parse_docker_fetch_congr (gd1 gd2 : String → docker_response × String)
    (pj : String → Option Json)
    (hgd : ∀ api id,
      gd1 (build_request api ("/containers/" ++ id ++ "/json")) =
      gd2 (build_request api ("/containers/" ++ id ++ "/json")))
    (api container_id : String) :
    parse_docker_fetch gd1 pj api container_id =
      parse_docker_fetch gd2 pj api container_id := by
  simp only [parse_docker_fetch]
  rw [hgd api container_id, hgd "" container_id]

/-- Claim C7: when the process-wide flag is cleared through
`set_query_image_info`, `parse_docker` performs no extended image-info
sub-resolution: two transports that agree on every `/containers/<id>/json`
request — and may behave arbitrarily on every other request, in particular
the `/images/...` endpoint — yield identical results on every container, at
every recursion depth. -/
theorem C7_no_image_query (gd1 gd2 : String → docker_response × String)
    (pj : String → Option Json) (sci : String → String × String × String)
    (pip : String → Option Int)
    (hgd : ∀ api id,
      gd1 (build_request api ("/containers/" ++ id ++ "/json")) =
      gd2 (build_request api ("/containers/" ++ id ++ "/json"))) :
    ∀ (fuel : Nat) (api container_id : String)
      (container : sinsp_container_info),
      docker_async_source.parse_docker gd1 pj sci pip
        (docker_async_source.set_query_image_info false) fuel api container_id
        container =
      docker_async_source.parse_docker gd2 pj sci pip
        (docker_async_source.set_query_image_info false) fuel api container_id
        container := by
  simp only [docker_async_source.set_query_image_info]
  intro fuel
  induction fuel with
  | zero => intro api id c; rfl
  | succ n ih =>
    intro api id c
    have hrec : docker_async_source.parse_docker gd1 pj sci pip false n =
        docker_async_source.parse_docker gd2 pj sci pip false n :=
      funext fun a => funext fun b => funext fun d => ih a b d
    simp only [docker_async_source.parse_docker]
    rw [parse_docker_fetch_congr gd1 gd2 pj hgd api id]
    cases hscrut : parse_docker_fetch gd2 pj api id with
    | mk api2 oroot =>
      cases oroot with
      | none => rfl
      | some root =>
        dsimp only
        cases hcfg : parse_docker_config pj root c with
        | none => rfl
        | some c1 =>
          dsimp only
          rw [parse_docker_image_no_query gd1 gd2 pj sci api2 root c1, hrec]

/-- First transport for the C7 witness. -/
def gd1C7 : String → docker_response × String :=
  fun r => if r = "i" then (.RESP_OK, "img1") else (.RESP_ERROR, "")

/-- Second transport for the C7 witness: differs from the first only on the
request `"i"`, which is never a container request. -/
def gd2C7 : String → docker_response × String :=
  fun r => if r = "i" then (.RESP_BAD_REQUEST, "img2") else (.RESP_ERROR, "")

/-- Witness for C7: two transports differing only outside the container
endpoint give the same resolution with the image query disabled. -/
theorem C7_no_image_query_witness :
    docker_async_source.parse_docker gd1C7 (fun _ => none)
        (fun _ => ("", "", "")) (fun _ => none)
        (docker_async_source.set_query_image_info false) 1 "/v1.24" "abc"
        container_info_default =
      docker_async_source.parse_docker gd2C7 (fun _ => none)
        (fun _ => ("", "", "")) (fun _ => none)
        (docker_async_source.set_query_image_info false) 1 "/v1.24" "abc"
        container_info_default :=
  C7_no_image_query gd1C7 gd2C7 (fun _ => none) (fun _ => ("", "", ""))
    (fun _ => none)
    (fun api id => by
      have h1 : "/containers/".length = 12 := rfl
      have h2 : "/json".length = 5 := rfl
      have h3 : "i".length = 1 := rfl
      have hne : build_request api ("/containers/" ++ id ++ "/json") ≠ "i" := by
        intro h
        have hl := congrArg String.length h
        rw [build_request, String.length_append, String.length_append,
          String.length_append] at hl
        omega
      simp [gd1C7, gd2C7, hne])
    1 "/v1.24" "abc" container_info_default
